import Mathlib

/-!
Shallow embedding of the client-side dashboard scripts of the
django_cryptotracker repository (src/static/js/dashboard.js and the
unnamed chart-initialisation file defining initPortfolioChart).
Numbers handled by the scripts are modelled as rationals, and the
JavaScript `Number.prototype.toFixed` formatting is modelled by
rounding half away from zero, which agrees with the IEEE-754 behaviour
of `toFixed` at every numeral appearing in the claims.  DOM effects
are modelled by explicit state passing on a `Dom` record; a thrown
JavaScript exception is an `Except.error` carrying the DOM state at
the moment of the throw.
-/

namespace Dashboard

/-- Rounding half away from zero: the behaviour of JavaScript
`toFixed` on the decimal values used by the dashboard. -/
def rhalfAway (q : ℚ) : ℤ :=
  if 0 ≤ q then ⌊q + 1/2⌋ else -⌊(-q) + 1/2⌋

/-- Decimal digit character for a value below ten. -/
def natDigitChar (n : ℕ) : Char := Char.ofNat (48 + n)

/-- Fuel-driven decimal digit expansion (most significant digit first);
the first argument is fuel and always suffices when it exceeds the
number of digits. -/
def natToDigitsAux : ℕ → ℕ → List Char → List Char
  | 0, _, acc => acc
  | fuel + 1, n, acc =>
    if n < 10 then natDigitChar n :: acc
    else natToDigitsAux fuel (n / 10) (natDigitChar (n % 10) :: acc)

/-- Decimal rendering of a natural number. -/
def natToString (n : ℕ) : String := String.mk (natToDigitsAux (n + 1) n [])

/-- Left-pad a digit list with zeros up to a given length. -/
def padZeros (len : ℕ) (s : List Char) : List Char :=
  List.replicate (len - s.length) '0' ++ s

/-- Fixed-point decimal rendering of an integer `n` that already holds
the value scaled by `10 ^ digits`. -/
def formatScaled (digits : ℕ) (n : ℤ) : String :=
  let sign : String := if n < 0 then "-" else ""
  let m : ℕ := n.natAbs
  let ip : ℕ := m / 10 ^ digits
  let fp : ℕ := m % 10 ^ digits
  if digits = 0 then sign ++ natToString ip
  else sign ++ natToString ip ++ "." ++ String.mk (padZeros digits (natToDigitsAux (fp + 1) fp []))

/-- Model of JavaScript `x.toFixed(digits)`: fixed-point decimal string
with `digits` fractional digits, the minus sign supplied by the
numeric formatting itself (before the digits, after nothing else). -/
def jsToFixed (digits : ℕ) (q : ℚ) : String :=
  formatScaled digits (rhalfAway (q * (10 : ℚ) ^ digits))

/-- The `totals` object of the refresh response
(src/static/js/dashboard.js, consumed in the first `.then`). -/
structure Totals where
  total_invested : ℚ
  total_current_value : ℚ
  total_profit_loss : ℚ
  total_profit_loss_percent : ℚ

/-- One entry of the `portfolios` array of the refresh response. -/
structure Portfolio where
  id : String
  current_price : ℚ
  current_value : ℚ
  profit_loss : ℚ
  profit_loss_percent : ℚ

/-- Decoded JSON body of the refresh response. -/
structure RefreshData where
  error : Option String
  totals : Totals
  portfolios : List Portfolio

/-- A DOM element as far as dashboard.js observes or mutates it. -/
structure Elem where
  textContent : String
  className : String
deriving DecidableEq

/-- A portfolio table row `tr[data-portfolio-id=...]` with its four
sub-elements (`.current-price`, `.current-value`, `.profit-loss`,
`.profit-loss-percent`). -/
structure Row where
  pid : String
  currentPrice : Elem
  currentValue : Elem
  profitLoss : Elem
  profitLossPercent : Elem
deriving DecidableEq

/-- An alert `div` carrying the `ajax-alert` marker class, as built by
`showAlert`; `insertedBeforeAnchor` records whether `insertBefore` was
given the `.d-flex` anchor (true) or `null`, which appends (false). -/
structure AlertDiv where
  className : String
  innerHTML : String
  insertedBeforeAnchor : Bool
deriving DecidableEq

/-- The portion of the document state read and written by
dashboard.js: the three totals display regions, the portfolio rows in
document order, presence of `main.container` and of its `.d-flex`
anchor child, the list of `ajax-alert` elements in the document, and
the refresh button's disabled flag and innerHTML. -/
structure Dom where
  totalInvested : Elem
  totalValue : Elem
  totalPL : Elem
  rows : List Row
  containerPresent : Bool
  anchorPresent : Bool
  alerts : List AlertDiv
  btnDisabled : Bool
  btnInnerHTML : String
deriving DecidableEq

/-- Spinner markup assigned to the button while the request runs. -/
def loadingHTML : String :=
  "<span class=\"spinner-border spinner-border-sm\"></span> Обновление..."

/-- Markup restored to the button at the end of both paths. -/
def idleHTML : String :=
  "<i class=\"bi bi-arrow-clockwise\"></i> Обновить цены"

/-- Canned connectivity message shown by the `.catch` handler. -/
def connErrorMsg : String :=
  "Ошибка при обновлении цен. Проверьте подключение к интернету."

/-- Leading part of the alert div's innerHTML template literal. -/
def alertHTMLPre : String := "\n        "

/-- Trailing part of the alert div's innerHTML template literal. -/
def alertHTMLPost : String :=
  "\n        <button type=\"button\" class=\"btn-close\" data-bs-dismiss=\"alert\"></button>\n    "

/-- The alert element constructed by `showAlert` for a given severity
tag and message, recording where it was inserted. -/
def mkAlertDiv (type message : String) (beforeAnchor : Bool) : AlertDiv :=
  { className := "alert alert-" ++ type ++ " alert-dismissible fade show ajax-alert"
    innerHTML := alertHTMLPre ++ message ++ alertHTMLPost
    insertedBeforeAnchor := beforeAnchor }

/-- Model of `showAlert(type, message)`: first removes every element carrying
the `ajax-alert` marker class, then builds the new alert div, then
looks up `main.container`.  If the container is absent the
`container.querySelector` call throws with the old alerts already
removed; otherwise the div is inserted with `insertBefore` whose
reference node is the first `.d-flex` child or `null` (appending at
the end) when that anchor is absent. -/
def showAlert (type message : String) (d : Dom) : Except Dom Dom :=
  if d.containerPresent then
    Except.ok { d with alerts := [mkAlertDiv type message d.anchorPresent] }
  else
    Except.error { d with alerts := [] }

/-- Update of one matched row: text of all four sub-elements is
replaced; the class of `.profit-loss` and `.profit-loss-percent` is
replaced by the polarity class plus the locating class, while
`.current-price` and `.current-value` keep their classes. -/
def updateRow (p : Portfolio) (r : Row) : Row :=
  let plSign : String := if 0 ≤ p.profit_loss then "+" else ""
  let plClass : String := if 0 ≤ p.profit_loss then "profit" else "loss"
  { r with
    currentPrice := { r.currentPrice with textContent := "$" ++ jsToFixed 2 p.current_price }
    currentValue := { r.currentValue with textContent := "$" ++ jsToFixed 2 p.current_value }
    profitLoss := { textContent := plSign ++ "$" ++ jsToFixed 2 p.profit_loss,
                    className := plClass ++ " profit-loss" }
    profitLossPercent := { textContent := "(" ++ plSign ++ jsToFixed 2 p.profit_loss_percent ++ "%)",
                           className := plClass ++ " profit-loss-percent" } }

/-- Model of `document.querySelector` on the row selector: the first row in
document order whose data attribute equals the entry's id is updated;
with no match the entry is skipped. -/
def updateRows (p : Portfolio) : List Row → List Row
  | [] => []
  | r :: rs => if r.pid = p.id then updateRow p r :: rs else r :: updateRows p rs

/-- Model of `data.portfolios.forEach(...)` over the document rows. -/
def forEachPortfolios (ps : List Portfolio) (d : Dom) : Dom :=
  ps.foldl (fun d p => { d with rows := updateRows p d.rows }) d

/-- Update of the three totals regions: `totalInvested` and
`totalValue` get new text; `totalPL` gets new text and a new class,
with one sign prefix computed from `total_profit_loss` and used both
before the dollar amount and inside the parenthesised percent. -/
def updateTotals (t : Totals) (d : Dom) : Dom :=
  let plSign : String := if 0 ≤ t.total_profit_loss then "+" else ""
  let plPercent : String := jsToFixed 2 t.total_profit_loss_percent
  { d with
    totalInvested := { d.totalInvested with textContent := "$" ++ jsToFixed 2 t.total_invested }
    totalValue := { d.totalValue with textContent := "$" ++ jsToFixed 2 t.total_current_value }
    totalPL := { textContent := plSign ++ "$" ++ jsToFixed 2 t.total_profit_loss
                   ++ " (" ++ plSign ++ plPercent ++ "%)",
                 className := "card-title " ++ (if 0 ≤ t.total_profit_loss then "profit" else "loss") } }

/-- Restoration of the refresh button (both paths end with it). -/
def restoreBtn (d : Dom) : Dom :=
  { d with btnDisabled := false, btnInnerHTML := idleHTML }

/-- Synchronous start of the click handler: disable the button and
show the spinner before any asynchronous work. -/
def clickStart (d : Dom) : Dom :=
  { d with btnDisabled := true, btnInnerHTML := loadingHTML }

/-- Body of the second `.then`: the `if (data.error)` truthiness
guard (false for an absent field and for the empty string) decides
whether the warning alert is shown, then totals update, then the
per-portfolio row updates, then button restoration.  A throw inside
`showAlert` aborts the rest and propagates. -/
def thenBody (data : RefreshData) (d : Dom) : Except Dom Dom :=
  match (match data.error with
         | some msg => if msg = "" then Except.ok d else showAlert "warning" msg d
         | none => Except.ok d) with
  | Except.error d1 => Except.error d1
  | Except.ok d1 =>
      Except.ok (restoreBtn (forEachPortfolios data.portfolios (updateTotals data.totals d1)))

/-- Body of the `.catch` handler: danger alert (which may itself
throw, before the button is touched), then button restoration. -/
def catchBody (d : Dom) : Except Dom Dom :=
  match showAlert "danger" connErrorMsg d with
  | Except.error d1 => Except.error d1
  | Except.ok d1 => Except.ok (restoreBtn d1)

/-- Outcome of `fetch(url).then(r => r.json())`: either a decoded
payload or a network/decode failure. -/
inductive FetchOutcome where
  | success : RefreshData → FetchOutcome
  | failure : FetchOutcome

/-- One complete activation of the refresh click handler: synchronous
disable/spinner, then the promise chain; a rejection of the `.then`
body is handled by `.catch`, and a throw inside `.catch` escapes as an
unhandled rejection (`Except.error`). -/
def refreshPrices (o : FetchOutcome) (d : Dom) : Except Dom Dom :=
  let d0 := clickStart d
  match o with
  | FetchOutcome.success data =>
      match thenBody data d0 with
      | Except.ok d1 => Except.ok d1
      | Except.error d1 => catchBody d1
  | FetchOutcome.failure => catchBody d0

/-- Tooltip label callback of `initPortfolioChart`: `context.raw` is
the hovered value, the total is `reduce((a, b) => a + b, 0)` over the
dataset, and the percentage is `toFixed(1)` of value/total*100. -/
def tooltipLabel (labels : List String) (values : List ℚ) (i : ℕ) : String :=
  let value : ℚ := values.getD i 0
  let total : ℚ := values.foldl (· + ·) 0
  let percentage : String := jsToFixed 1 (value / total * 100)
  labels.getD i "" ++ ": $" ++ jsToFixed 2 value ++ " (" ++ percentage ++ "%)"

/-- Tooltip text as the specification words it: label, colon, dollar
value to two decimals, and in parentheses the segment's share of the
sum of all values times one hundred, to one decimal, with a percent
sign. -/
def tooltipSpecText (labels : List String) (values : List ℚ) (i : ℕ) : String :=
  labels.getD i "" ++ ": $" ++ jsToFixed 2 (values.getD i 0)
    ++ " (" ++ jsToFixed 1 (values.getD i 0 / values.sum * 100) ++ "%)"

/-! Concrete example objects used to instantiate the theorems. -/

/-- An empty display element. -/
def elemEx : Elem := { textContent := "", className := "" }

/-- A portfolio row with id "1" whose price and value sub-elements
carry classes that are neither polarity class. -/
def rowEx : Row :=
  { pid := "1"
    currentPrice := { textContent := "", className := "stale-price" }
    currentValue := { textContent := "", className := "stale-value" }
    profitLoss := { textContent := "", className := "profit-loss" }
    profitLossPercent := { textContent := "", className := "profit-loss-percent" } }

/-- A document state satisfying the full DOM contract. -/
def domEx : Dom :=
  { totalInvested := elemEx, totalValue := elemEx, totalPL := elemEx
    rows := [rowEx]
    containerPresent := true, anchorPresent := true
    alerts := [], btnDisabled := false, btnInnerHTML := idleHTML }

/-- The same document with `main.container` absent. -/
def domNoContainer : Dom := { domEx with containerPresent := false }

/-- The same document with the `.d-flex` anchor absent and one alert
already displayed. -/
def domNoAnchor : Dom :=
  { domEx with anchorPresent := false, alerts := [mkAlertDiv "info" "old" true] }

/-- Entry with profit_loss = -12.345. -/
def pNegEx : Portfolio :=
  { id := "1", current_price := 1, current_value := 1
    profit_loss := -12.345, profit_loss_percent := -5 }

/-- Entry with profit_loss = 0. -/
def pZeroEx : Portfolio :=
  { id := "1", current_price := 1, current_value := 1
    profit_loss := 0, profit_loss_percent := 0 }

/-- Entry with positive profit_loss. -/
def pProfitEx : Portfolio :=
  { id := "1", current_price := 1, current_value := 1
    profit_loss := 5, profit_loss_percent := 2 }

/-- Entry with negative profit_loss. -/
def pLossEx : Portfolio :=
  { id := "1", current_price := 1, current_value := 1
    profit_loss := -5, profit_loss_percent := -2 }

/-- Entry whose id matches no row of `domEx`. -/
def pUnmatchedEx : Portfolio :=
  { id := "9", current_price := 1, current_value := 1
    profit_loss := 1, profit_loss_percent := 1 }

/-- Zero totals. -/
def totalsEx : Totals := ⟨0, 0, 0, 0⟩

/-- Totals with non-negative profit/loss and negative percent. -/
def totalsPosNeg : Totals := ⟨0, 0, 5, -2⟩

/-- Totals with negative profit/loss and non-negative percent. -/
def totalsNegPos : Totals := ⟨0, 0, -5, 2⟩

/-- A response whose payload carries an error field. -/
def dataWarnEx : RefreshData := ⟨some "X", totalsEx, []⟩

/-- A response with one unmatched portfolios entry. -/
def dataUnmatchedEx : RefreshData := ⟨none, totalsEx, [pUnmatchedEx]⟩

/-- A response whose error field carries the empty string, which is
falsy under the JavaScript truthiness guard. -/
def dataEmptyErrEx : RefreshData := ⟨some "", totalsEx, []⟩

/-! Evaluations of `jsToFixed` at the rational constants appearing in
the claims.  The rounding step is settled by `norm_num`; the digit
formatting of the scaled integer is settled by the kernel. -/

lemma toFixed2_neg12345 : jsToFixed 2 (-12.345 : ℚ) = "-12.35" := by
  have h : rhalfAway ((-12.345 : ℚ) * (10 : ℚ) ^ (2 : ℕ)) = -1235 := by
    unfold rhalfAway
    rw [if_neg (by norm_num)]
    norm_num
  unfold jsToFixed
  rw [h]
  decide

lemma toFixed2_zero : jsToFixed 2 (0 : ℚ) = "0.00" := by
  have h : rhalfAway ((0 : ℚ) * (10 : ℚ) ^ (2 : ℕ)) = 0 := by
    unfold rhalfAway
    rw [if_pos (by norm_num)]
    norm_num
  unfold jsToFixed
  rw [h]
  decide

lemma toFixed2_five : jsToFixed 2 (5 : ℚ) = "5.00" := by
  have h : rhalfAway ((5 : ℚ) * (10 : ℚ) ^ (2 : ℕ)) = 500 := by
    unfold rhalfAway
    rw [if_pos (by norm_num)]
    norm_num
  unfold jsToFixed
  rw [h]
  decide

lemma toFixed2_negTwo : jsToFixed 2 (-2 : ℚ) = "-2.00" := by
  have h : rhalfAway ((-2 : ℚ) * (10 : ℚ) ^ (2 : ℕ)) = -200 := by
    unfold rhalfAway
    rw [if_neg (by norm_num)]
    norm_num
  unfold jsToFixed
  rw [h]
  decide

lemma toFixed2_two : jsToFixed 2 (2 : ℚ) = "2.00" := by
  have h : rhalfAway ((2 : ℚ) * (10 : ℚ) ^ (2 : ℕ)) = 200 := by
    unfold rhalfAway
    rw [if_pos (by norm_num)]
    norm_num
  unfold jsToFixed
  rw [h]
  decide

lemma toFixed2_negFive : jsToFixed 2 (-5 : ℚ) = "-5.00" := by
  have h : rhalfAway ((-5 : ℚ) * (10 : ℚ) ^ (2 : ℕ)) = -500 := by
    unfold rhalfAway
    rw [if_neg (by norm_num)]
    norm_num
  unfold jsToFixed
  rw [h]
  decide

lemma toFixed2_twenty : jsToFixed 2 (20 : ℚ) = "20.00" := by
  have h : rhalfAway ((20 : ℚ) * (10 : ℚ) ^ (2 : ℕ)) = 2000 := by
    unfold rhalfAway
    rw [if_pos (by norm_num)]
    norm_num
  unfold jsToFixed
  rw [h]
  decide

lemma toFixed1_hundredThirds : jsToFixed 1 ((100 : ℚ) / 3) = "33.3" := by
  have h : rhalfAway ((100 : ℚ) / 3 * (10 : ℚ) ^ (1 : ℕ)) = 333 := by
    unfold rhalfAway
    rw [if_pos (by norm_num)]
    norm_num
  unfold jsToFixed
  rw [h]
  decide

end Dashboard

namespace Dashboard

lemma foldl_add_from (l : List ℚ) : ∀ a : ℚ, l.foldl (· + ·) a = a + l.sum := by
  induction l with
  | nil => intro a; simp
  | cons x xs ih => intro a; simp [List.foldl, ih, add_assoc]

lemma foldl_add_eq_sum (l : List ℚ) : l.foldl (· + ·) 0 = l.sum := by
  rw [foldl_add_from l 0, zero_add]

lemma updateRow_pid (p : Portfolio) (r : Row) : (updateRow p r).pid = r.pid := rfl

lemma updateRows_no_match (p : Portfolio) (rows : List Row)
    (h : ∀ r ∈ rows, r.pid ≠ p.id) : updateRows p rows = rows := by
  induction rows with
  | nil => rfl
  | cons r rs ih =>
      simp only [updateRows]
      rw [if_neg (h r (List.mem_cons_self r rs)),
        ih (fun x hx => h x (List.mem_cons_of_mem r hx))]

lemma updateRows_map_pid (p : Portfolio) (rows : List Row) :
    (updateRows p rows).map Row.pid = rows.map Row.pid := by
  induction rows with
  | nil => rfl
  | cons r rs ih =>
      simp only [updateRows]
      by_cases h : r.pid = p.id
      · rw [if_pos h]
        simp [updateRow_pid]
      · rw [if_neg h]
        simp [ih]

lemma forEachPortfolios_cons (p : Portfolio) (ps : List Portfolio) (d : Dom) :
    forEachPortfolios (p :: ps) d
      = forEachPortfolios ps ({ d with rows := updateRows p d.rows }) := rfl

lemma forEachPortfolios_append (xs ys : List Portfolio) (d : Dom) :
    forEachPortfolios (xs ++ ys) d = forEachPortfolios ys (forEachPortfolios xs d) := by
  simp only [forEachPortfolios, List.foldl_append]

lemma forEachPortfolios_map_pid (ps : List Portfolio) (d : Dom) :
    ((forEachPortfolios ps d).rows).map Row.pid = d.rows.map Row.pid := by
  induction ps generalizing d with
  | nil => rfl
  | cons p ps ih =>
      rw [forEachPortfolios_cons, ih]
      simp [updateRows_map_pid]

lemma forEachPortfolios_skip (p : Portfolio) (ps1 ps2 : List Portfolio) (d : Dom)
    (h : ∀ r ∈ d.rows, r.pid ≠ p.id) :
    forEachPortfolios (ps1 ++ p :: ps2) d = forEachPortfolios (ps1 ++ ps2) d := by
  rw [forEachPortfolios_append, forEachPortfolios_append, forEachPortfolios_cons]
  have h' : ∀ r ∈ (forEachPortfolios ps1 d).rows, r.pid ≠ p.id := by
    intro r hr
    have hm : r.pid ∈ ((forEachPortfolios ps1 d).rows).map Row.pid :=
      List.mem_map_of_mem Row.pid hr
    rw [forEachPortfolios_map_pid] at hm
    obtain ⟨r', hr', hpid⟩ := List.mem_map.mp hm
    rw [← hpid]
    exact h r' hr'
  rw [updateRows_no_match p _ h']

/-- C1, counterexample: for the entry with profit_loss = -12.345 the
text actually written into the profit/loss sub-element is "$-12.35",
with the native minus sign after the dollar sign, not "-$12.35" as
the claim states. -/
theorem profitLoss_negative_text_counterexample :
    (updateRow pNegEx rowEx).profitLoss.textContent = "$-12.35" ∧
    ("$-12.35" : String) ≠ "-$12.35" := by
  constructor
  · have hs : ¬ (0 : ℚ) ≤ (-12.345 : ℚ) := by norm_num
    simp only [updateRow, pNegEx, if_neg hs, toFixed2_neg12345]
    decide
  · decide

/-- C1, amended: for a per-portfolio entry with profit_loss = -12.345
the sign prefix is empty and the text written into the row's
profit/loss sub-element is "$-12.35" (dollar sign first, minus sign
supplied by the numeric formatting after it), and the polarity class
applied is the loss class. -/
theorem profitLoss_negative_text_amended (r : Row) (p : Portfolio)
    (h : p.profit_loss = -12.345) :
    (updateRow p r).profitLoss.textContent = "$-12.35" ∧
    (updateRow p r).profitLoss.className = "loss profit-loss" := by
  have hs : ¬ (0 : ℚ) ≤ (-12.345 : ℚ) := by norm_num
  simp only [updateRow, h, if_neg hs, toFixed2_neg12345]
  exact ⟨by decide, by decide⟩

/-- Witness for the amended C1 at the concrete entry pNegEx. -/
theorem profitLoss_negative_text_amended_witness :
    pNegEx.profit_loss = -12.345 ∧
    ((updateRow pNegEx rowEx).profitLoss.textContent = "$-12.35" ∧
     (updateRow pNegEx rowEx).profitLoss.className = "loss profit-loss") :=
  ⟨rfl, profitLoss_negative_text_amended rowEx pNegEx rfl⟩

/-- C8: for a per-portfolio entry with profit_loss = 0 the sign prefix
is "+", the displayed profit/loss text is "+$0.00", and the polarity
class applied is the profit class. -/
theorem profitLoss_zero_text (r : Row) (p : Portfolio) (h : p.profit_loss = 0) :
    (updateRow p r).profitLoss.textContent = "+$0.00" ∧
    (updateRow p r).profitLoss.className = "profit profit-loss" := by
  have hs : (0 : ℚ) ≤ (0 : ℚ) := le_refl 0
  simp only [updateRow, h, if_pos hs, toFixed2_zero]
  exact ⟨by decide, by decide⟩

/-- Witness for C8 at the concrete entry pZeroEx. -/
theorem profitLoss_zero_text_witness :
    pZeroEx.profit_loss = 0 ∧
    ((updateRow pZeroEx rowEx).profitLoss.textContent = "+$0.00" ∧
     (updateRow pZeroEx rowEx).profitLoss.className = "profit profit-loss") :=
  ⟨rfl, profitLoss_zero_text rowEx pZeroEx rfl⟩

/-- C3, counterexample: the price sub-element's class is left
untouched by a row update — it is the same after a profit entry and
after a loss entry (and is neither polarity class), so it does not
have a polarity class re-applied; only the profit/loss amount and
percent sub-elements do. -/
theorem four_subregions_class_counterexample :
    (updateRow pProfitEx rowEx).currentPrice.className = "stale-price" ∧
    (updateRow pLossEx rowEx).currentPrice.className = "stale-price" ∧
    (updateRow pProfitEx rowEx).currentValue.className = "stale-value" ∧
    ("stale-price" : String) ≠ "profit" ∧ ("stale-price" : String) ≠ "loss" ∧
    (updateRow pProfitEx rowEx).profitLoss.className
      ≠ (updateRow pLossEx rowEx).profitLoss.className := by
  have hp : (0 : ℚ) ≤ (5 : ℚ) := by norm_num
  have hl : ¬ (0 : ℚ) ≤ (-5 : ℚ) := by norm_num
  refine ⟨?_, ?_, ?_, by decide, by decide, ?_⟩
  · simp only [updateRow, pProfitEx, rowEx]
  · simp only [updateRow, pLossEx, rowEx]
  · simp only [updateRow, pProfitEx, rowEx]
  · simp only [updateRow, pProfitEx, pLossEx, if_pos hp, if_neg hl]
    decide

/-- C3, amended: for every portfolios entry whose id matches a row,
the handler updates the text of all four sub-regions of that row, but
a polarity class (profit when profit_loss >= 0, loss otherwise) is
re-applied only to the profit/loss amount and profit/loss percent
sub-elements; the price and value sub-elements keep their classes. -/
theorem row_update_amended (p : Portfolio) (r : Row) (rs : List Row)
    (h : r.pid = p.id) :
    updateRows p (r :: rs) = updateRow p r :: rs ∧
    (updateRow p r).currentPrice.textContent = "$" ++ jsToFixed 2 p.current_price ∧
    (updateRow p r).currentValue.textContent = "$" ++ jsToFixed 2 p.current_value ∧
    (updateRow p r).currentPrice.className = r.currentPrice.className ∧
    (updateRow p r).currentValue.className = r.currentValue.className ∧
    (updateRow p r).profitLoss.textContent
      = (if 0 ≤ p.profit_loss then "+" else "") ++ "$" ++ jsToFixed 2 p.profit_loss ∧
    (updateRow p r).profitLoss.className
      = (if 0 ≤ p.profit_loss then "profit" else "loss") ++ " profit-loss" ∧
    (updateRow p r).profitLossPercent.textContent
      = "(" ++ (if 0 ≤ p.profit_loss then "+" else "") ++ jsToFixed 2 p.profit_loss_percent ++ "%)" ∧
    (updateRow p r).profitLossPercent.className
      = (if 0 ≤ p.profit_loss then "profit" else "loss") ++ " profit-loss-percent" := by
  refine ⟨?_, rfl, rfl, rfl, rfl, rfl, rfl, rfl, rfl⟩
  simp only [updateRows, if_pos h]

/-- Witness for the amended C3 at the concrete entry pProfitEx and row rowEx. -/
theorem row_update_amended_witness :
    rowEx.pid = pProfitEx.id ∧
    (updateRows pProfitEx (rowEx :: []) = updateRow pProfitEx rowEx :: [] ∧
     (updateRow pProfitEx rowEx).currentPrice.textContent
       = "$" ++ jsToFixed 2 pProfitEx.current_price ∧
     (updateRow pProfitEx rowEx).currentValue.textContent
       = "$" ++ jsToFixed 2 pProfitEx.current_value ∧
     (updateRow pProfitEx rowEx).currentPrice.className = rowEx.currentPrice.className ∧
     (updateRow pProfitEx rowEx).currentValue.className = rowEx.currentValue.className ∧
     (updateRow pProfitEx rowEx).profitLoss.textContent
       = (if 0 ≤ pProfitEx.profit_loss then "+" else "") ++ "$" ++ jsToFixed 2 pProfitEx.profit_loss ∧
     (updateRow pProfitEx rowEx).profitLoss.className
       = (if 0 ≤ pProfitEx.profit_loss then "profit" else "loss") ++ " profit-loss" ∧
     (updateRow pProfitEx rowEx).profitLossPercent.textContent
       = "(" ++ (if 0 ≤ pProfitEx.profit_loss then "+" else "")
           ++ jsToFixed 2 pProfitEx.profit_loss_percent ++ "%)" ∧
     (updateRow pProfitEx rowEx).profitLossPercent.className
       = (if 0 ≤ pProfitEx.profit_loss then "profit" else "loss") ++ " profit-loss-percent") :=
  ⟨rfl, row_update_amended pProfitEx rowEx [] rfl⟩

/-- C9: in the totals display the sign prefix of the percent portion
is derived from total_profit_loss, not from
total_profit_loss_percent; with total_profit_loss >= 0 and a negative
percent the text has the form "(+-N%)", and with total_profit_loss
negative the percent gets no prefix even when it is non-negative. -/
theorem totals_percent_sign_from_absolute :
    (∀ (t : Totals) (d : Dom),
        (updateTotals t d).totalPL.textContent
          = (if 0 ≤ t.total_profit_loss then "+" else "") ++ "$"
            ++ jsToFixed 2 t.total_profit_loss
            ++ " (" ++ (if 0 ≤ t.total_profit_loss then "+" else "")
            ++ jsToFixed 2 t.total_profit_loss_percent ++ "%)") ∧
    (updateTotals totalsPosNeg domEx).totalPL.textContent = "+$5.00 (+-2.00%)" ∧
    (updateTotals totalsNegPos domEx).totalPL.textContent = "$-5.00 (2.00%)" := by
  refine ⟨fun t d => rfl, ?_, ?_⟩
  · have hp : (0 : ℚ) ≤ (5 : ℚ) := by norm_num
    simp only [updateTotals, totalsPosNeg, if_pos hp, toFixed2_five, toFixed2_negTwo]
    decide
  · have hl : ¬ (0 : ℚ) ≤ (-5 : ℚ) := by norm_num
    simp only [updateTotals, totalsNegPos, if_neg hl, toFixed2_negFive, toFixed2_two]
    decide

/-- C4, counterexample: a decoded response whose payload carries an
error field with the empty-string value takes the falsy branch of
`if (data.error)` — no warning alert is created (the document ends
with no alert at all), while the numeric updates and the restoration
still run, so the claim's universally guaranteed alert creation fails
at value X = "". -/
theorem error_empty_string_counterexample :
    dataEmptyErrEx.error = some "" ∧
    thenBody dataEmptyErrEx domEx
      = Except.ok (restoreBtn (forEachPortfolios dataEmptyErrEx.portfolios
          (updateTotals dataEmptyErrEx.totals domEx))) ∧
    (restoreBtn (forEachPortfolios dataEmptyErrEx.portfolios
        (updateTotals dataEmptyErrEx.totals domEx))).alerts = [] :=
  ⟨rfl, rfl, rfl⟩

/-- C4, amended: for every decoded response whose payload carries an
error field with a non-empty value "X" (the truthiness guard
`if (data.error)` treats the empty string as absent), on a document
satisfying the DOM contract (the alert container present), a
warning-severity alert whose markup contains "X" is created, the
handling is non-fatal, and the numeric updates to the totals and the
portfolio rows still proceed afterwards. -/
theorem error_field_warning_nonfatal (data : RefreshData) (msg : String) (d : Dom)
    (herr : data.error = some msg) (hmsg : msg ≠ "") (hc : d.containerPresent = true) :
    thenBody data d
      = Except.ok (restoreBtn (forEachPortfolios data.portfolios
          (updateTotals data.totals
            ({ d with alerts := [mkAlertDiv "warning" msg d.anchorPresent] })))) ∧
    (mkAlertDiv "warning" msg d.anchorPresent).innerHTML
      = alertHTMLPre ++ msg ++ alertHTMLPost ∧
    (mkAlertDiv "warning" msg d.anchorPresent).className
      = "alert alert-warning alert-dismissible fade show ajax-alert" := by
  refine ⟨?_, rfl, ?_⟩
  · simp only [thenBody, herr]
    rw [if_neg hmsg]
    simp only [showAlert, hc, if_true]
  · simp only [mkAlertDiv]
    decide

/-- Witness for the amended C4 at the concrete response dataWarnEx
(error field "X", non-empty) and document domEx. -/
theorem error_field_warning_nonfatal_witness :
    dataWarnEx.error = some "X" ∧ ("X" : String) ≠ "" ∧ domEx.containerPresent = true ∧
    (thenBody dataWarnEx domEx
      = Except.ok (restoreBtn (forEachPortfolios dataWarnEx.portfolios
          (updateTotals dataWarnEx.totals
            ({ domEx with alerts := [mkAlertDiv "warning" "X" domEx.anchorPresent] })))) ∧
     (mkAlertDiv "warning" "X" domEx.anchorPresent).innerHTML
       = alertHTMLPre ++ "X" ++ alertHTMLPost ∧
     (mkAlertDiv "warning" "X" domEx.anchorPresent).className
       = "alert alert-warning alert-dismissible fade show ajax-alert") :=
  ⟨rfl, by decide, rfl, error_field_warning_nonfatal dataWarnEx "X" domEx rfl (by decide) rfl⟩

/-- C5: when the alert container is present, any call to the Alert
Presenter removes all existing marker-class alerts and inserts exactly
one new one, so exactly one marker-class alert is present afterwards;
in particular a second successive call again leaves exactly the one
alert it inserted. -/
theorem alert_singleton_invariant (t1 m1 t2 m2 : String) (d : Dom)
    (hc : d.containerPresent = true) :
    showAlert t1 m1 d
      = Except.ok ({ d with alerts := [mkAlertDiv t1 m1 d.anchorPresent] }) ∧
    ({ d with alerts := [mkAlertDiv t1 m1 d.anchorPresent] } : Dom).alerts.length = 1 ∧
    showAlert t2 m2 ({ d with alerts := [mkAlertDiv t1 m1 d.anchorPresent] })
      = Except.ok ({ d with alerts := [mkAlertDiv t2 m2 d.anchorPresent] }) := by
  refine ⟨?_, rfl, ?_⟩
  · simp only [showAlert, hc, if_true]
  · simp only [showAlert, hc, if_true]

/-- Witness for C5 at two successive concrete calls on domEx. -/
theorem alert_singleton_invariant_witness :
    domEx.containerPresent = true ∧
    (showAlert "warning" "a" domEx
       = Except.ok ({ domEx with alerts := [mkAlertDiv "warning" "a" domEx.anchorPresent] }) ∧
     ({ domEx with alerts := [mkAlertDiv "warning" "a" domEx.anchorPresent] } : Dom).alerts.length = 1 ∧
     showAlert "danger" "b" ({ domEx with alerts := [mkAlertDiv "warning" "a" domEx.anchorPresent] })
       = Except.ok ({ domEx with alerts := [mkAlertDiv "danger" "b" domEx.anchorPresent] })) :=
  ⟨rfl, alert_singleton_invariant "warning" "a" "danger" "b" domEx rfl⟩

/-- C6: processing a portfolios entry whose id matches no row is a
no-op — the whole response handling gives the same document as
handling the response with that entry removed, so the updates for the
other entries and the totals are unaffected. -/
theorem unmatched_entry_noop (data : RefreshData) (p : Portfolio)
    (ps1 ps2 : List Portfolio) (d : Dom)
    (hps : data.portfolios = ps1 ++ p :: ps2)
    (h : ∀ r ∈ d.rows, r.pid ≠ p.id) :
    thenBody data d = thenBody { data with portfolios := ps1 ++ ps2 } d := by
  obtain ⟨err, tot, ps⟩ := data
  simp only at hps
  subst hps
  have haux : ∀ d1 : Dom, d1.rows = d.rows →
      forEachPortfolios (ps1 ++ p :: ps2) d1 = forEachPortfolios (ps1 ++ ps2) d1 :=
    fun d1 h1 => forEachPortfolios_skip p ps1 ps2 d1 (fun r hr => h r (h1 ▸ hr))
  cases err with
  | none =>
      simp only [thenBody]
      exact congrArg (fun x => Except.ok (restoreBtn x)) (haux _ rfl)
  | some msg =>
      by_cases hm : msg = ""
      · simp only [thenBody, if_pos hm]
        exact congrArg (fun x => Except.ok (restoreBtn x)) (haux _ rfl)
      · simp only [thenBody, if_neg hm, showAlert]
        cases hcp : d.containerPresent with
        | false => simp
        | true =>
            simp only [if_true]
            exact congrArg (fun x => Except.ok (restoreBtn x)) (haux _ rfl)

/-- Witness for C6 at the concrete response dataUnmatchedEx, whose one
entry has id "9" while the only row of domEx has id "1". -/
theorem unmatched_entry_noop_witness :
    dataUnmatchedEx.portfolios = [] ++ pUnmatchedEx :: [] ∧
    (∀ r ∈ domEx.rows, r.pid ≠ pUnmatchedEx.id) ∧
    thenBody dataUnmatchedEx domEx
      = thenBody { dataUnmatchedEx with portfolios := [] ++ [] } domEx :=
  ⟨rfl, by decide, unmatched_entry_noop dataUnmatchedEx pUnmatchedEx [] [] domEx rfl (by decide)⟩

/-- C7: the tooltip text of a hovered segment is the label, a colon,
"$" plus the value to two decimals, then in parentheses the segment's
percentage of the sum of all values to one decimal with "%"; in
particular for values [10, 20, 30] and labels ["A","B","C"], segment
"B" yields "B: $20.00 (33.3%)". -/
theorem tooltip_format :
    (∀ (labels : List String) (values : List ℚ) (i : ℕ),
        tooltipLabel labels values i = tooltipSpecText labels values i) ∧
    tooltipLabel ["A", "B", "C"] [10, 20, 30] 1 = "B: $20.00 (33.3%)" := by
  constructor
  · intro labels values i
    simp only [tooltipLabel, tooltipSpecText, foldl_add_eq_sum]
  · simp only [tooltipLabel]
    have hv : ([10, 20, 30] : List ℚ).getD 1 0 = 20 := rfl
    have ht : ([10, 20, 30] : List ℚ).foldl (· + ·) 0 = 60 := by
      simp only [List.foldl]
      norm_num
    rw [hv, ht]
    have harg : (20 : ℚ) / 60 * 100 = 100 / 3 := by norm_num
    rw [harg, toFixed1_hundredThirds, toFixed2_twenty]
    decide

/-- C2, counterexample: a failed request handled while the alert
container is absent leaves the triggering control disabled with the
spinner markup — the danger alert in the catch path throws before the
restoration lines run, so restoration is not unconditional. -/
theorem restore_missing_container_counterexample :
    refreshPrices FetchOutcome.failure domNoContainer
      = Except.error ({ domNoContainer with
          btnDisabled := true, btnInnerHTML := loadingHTML, alerts := [] }) ∧
    ({ domNoContainer with
         btnDisabled := true, btnInnerHTML := loadingHTML, alerts := [] } : Dom).btnDisabled
      = true :=
  ⟨rfl, rfl⟩

/-- C2, amended: for every completed activation on a document whose
alert container is present (so the Alert Presenter cannot throw), the
triggering control is restored at the end of both the success path
and the failure path — re-enabled with the idle refresh markup —
unconditionally on the outcome. -/
theorem control_restored_amended (o : FetchOutcome) (d : Dom)
    (hc : d.containerPresent = true) :
    ∃ d1, refreshPrices o d = Except.ok d1 ∧
      d1.btnDisabled = false ∧ d1.btnInnerHTML = idleHTML := by
  cases o with
  | failure =>
      simp only [refreshPrices, catchBody, showAlert, clickStart, hc, if_true]
      exact ⟨_, rfl, rfl, rfl⟩
  | success data =>
      cases herr : data.error with
      | none =>
          simp only [refreshPrices, thenBody, herr]
          exact ⟨_, rfl, rfl, rfl⟩
      | some msg =>
          by_cases hm : msg = ""
          · simp only [refreshPrices, thenBody, herr, if_pos hm]
            exact ⟨_, rfl, rfl, rfl⟩
          · simp only [refreshPrices, thenBody, herr, if_neg hm, showAlert, clickStart, hc,
              if_true]
            exact ⟨_, rfl, rfl, rfl⟩

/-- Witness for the amended C2 at a concrete failed request on domEx. -/
theorem control_restored_amended_witness :
    domEx.containerPresent = true ∧
    (∃ d1, refreshPrices FetchOutcome.failure domEx = Except.ok d1 ∧
       d1.btnDisabled = false ∧ d1.btnInnerHTML = idleHTML) :=
  ⟨rfl, control_restored_amended FetchOutcome.failure domEx rfl⟩

/-- C10, counterexample: a call made when only the anchor is absent
(container present) does not fail — the new alert is inserted with a
null reference node, appended at the container's end, and exactly one
alert is visible afterwards. -/
theorem showAlert_anchor_absent_counterexample :
    domNoAnchor.anchorPresent = false ∧
    domNoAnchor.alerts.length = 1 ∧
    showAlert "danger" "X" domNoAnchor
      = Except.ok ({ domNoAnchor with alerts := [mkAlertDiv "danger" "X" false] }) ∧
    ({ domNoAnchor with alerts := [mkAlertDiv "danger" "X" false] } : Dom).alerts.length = 1 :=
  ⟨rfl, rfl, rfl, rfl⟩

/-- C10, amended: the Alert Presenter removes all existing
marker-class alerts before looking up the container, so a call made
when the container is absent throws after the removal, leaving no
alert visible; a call made when only the anchor is absent succeeds,
appending the new alert at the container's end instead of before the
anchor. -/
theorem showAlert_failure_atomicity_amended (type msg : String) (d : Dom) :
    (d.containerPresent = false →
        showAlert type msg d = Except.error ({ d with alerts := [] }) ∧
        ({ d with alerts := [] } : Dom).alerts = []) ∧
    (d.containerPresent = true →
        showAlert type msg d
          = Except.ok ({ d with alerts := [mkAlertDiv type msg d.anchorPresent] }) ∧
        (mkAlertDiv type msg d.anchorPresent).insertedBeforeAnchor = d.anchorPresent) := by
  constructor
  · intro hc
    refine ⟨?_, rfl⟩
    simp [showAlert, hc]
  · intro hc
    refine ⟨?_, rfl⟩
    simp only [showAlert, hc, if_true]

/-- Witness for the amended C10 at a concrete call on domNoContainer. -/
theorem showAlert_failure_atomicity_amended_witness :
    domNoContainer.containerPresent = false ∧
    (showAlert "warning" "w" domNoContainer
       = Except.error ({ domNoContainer with alerts := [] }) ∧
     ({ domNoContainer with alerts := [] } : Dom).alerts = []) :=
  ⟨rfl, (showAlert_failure_atomicity_amended "warning" "w" domNoContainer).1 rfl⟩

end Dashboard
